import Mathlib

/-!
Shallow embedding of the credential/session lifecycle and the
backend-authoritative rate limiter of the chatkit backend
(`backend/app/rate_limiter.py`, `backend/app/main.py`,
`backend/app/models.py`, `backend/app/config.py`).

Timestamps are modelled as integers counting microseconds — the exact
resolution of Python's `datetime` — so `timedelta` arithmetic and
comparisons are exact.  `int(td.total_seconds())` is truncation toward
zero of the exact number of seconds, modelled by `Int.tdiv _ 1000000`.
-/

namespace Chat

/-- Microseconds per second: `datetime` resolution. -/
def usPerSec : Int := 1000000

/-- `int(td.total_seconds())` for a `timedelta` of `us` microseconds:
truncation toward zero of the exact second count. -/
def truncSeconds (us : Int) : Int := Int.tdiv us usPerSec

/-- Exact ceiling of `us` microseconds measured in seconds
(used only to state the spec's `ceil` formula for comparison). -/
def ceilSeconds (us : Int) : Int := -(Int.ediv (-us) usPerSec)

/-- Replace the first element satisfying `p` by its image under `f`
(the effect of mutating the object returned by `query(...).first()`). -/
def replaceFirstBy {α : Type} (p : α → Bool) (f : α → α) : List α → List α
  | [] => []
  | x :: xs => if p x then f x :: xs else x :: replaceFirstBy p f xs

/-- Rate-limit configuration values (`config.py`, lines 31-43). -/
structure Config where
  RATE_LIMIT_WINDOW_SECONDS : Nat
  RATE_LIMIT_MAX_REQUESTS : Nat
  RATE_LIMIT_SAVE_CHAT : Nat
  RATE_LIMIT_PERSONALIZE : Nat
deriving Repr, DecidableEq

/-- Production configuration (`config.py`, lines 38-43). -/
def prodConfig : Config := ⟨60, 10, 5, 3⟩

/-- Integration-test configuration (`config.py`, lines 32-37). -/
def testConfig : Config := ⟨10, 3, 2, 2⟩

/-- A row of the `rate_limits` table (`models.py`, `RateLimit`). -/
structure RateLimit where
  session_token : String
  action : String
  count : Nat
  window_start : Int
deriving Repr, DecidableEq

/-- The rate-limit table: a list of rows. -/
abbrev RLStore := List RateLimit

/-- The row filter `RateLimit.session_token == session_token,
RateLimit.action == action` used by the limiter's queries. -/
def rlMatch (session_token action : String) (rl : RateLimit) : Bool :=
  rl.session_token == session_token && rl.action == action

/-- Default-resolution of `max_requests` (`rate_limiter.py`, lines 43-50). -/
def resolveMax (cfg : Config) (action : String) (max_requests : Option Nat) : Nat :=
  match max_requests with
  | some m => m
  | none =>
    if action == "save_chat" then cfg.RATE_LIMIT_SAVE_CHAT
    else if action == "personalize" then cfg.RATE_LIMIT_PERSONALIZE
    else cfg.RATE_LIMIT_MAX_REQUESTS

/-- Default-resolution of `window_seconds` (`rate_limiter.py`, lines 40-41). -/
def resolveWindow (cfg : Config) (window_seconds : Option Nat) : Nat :=
  window_seconds.getD cfg.RATE_LIMIT_WINDOW_SECONDS

/-- `check_rate_limit` (`rate_limiter.py`, lines 17-93): returns the updated
store together with `(allowed, retry_after)`. -/
def check_rate_limit (cfg : Config) (db : RLStore) (session_token action : String)
    (max_requests window_seconds : Option Nat) (now : Int) : RLStore × Bool × Int :=
  match db.find? (rlMatch session_token action) with
  | none =>
      (db ++ [⟨session_token, action, 1, now⟩], true, 0)
  | some rl =>
      if rl.window_start < now - (resolveWindow cfg window_seconds : Int) * usPerSec then
        (replaceFirstBy (rlMatch session_token action)
          (fun r => { r with count := 1, window_start := now }) db, true, 0)
      else if resolveMax cfg action max_requests ≤ rl.count then
        (db, false,
          max 1 (truncSeconds
            (rl.window_start + (resolveWindow cfg window_seconds : Int) * usPerSec - now)))
      else
        (replaceFirstBy (rlMatch session_token action)
          (fun r => { r with count := r.count + 1 }) db, true, 0)

/-- One entry of the status map of `get_rate_limit_status`. -/
structure ActionStatus where
  count : Nat
  max : Nat
  window_seconds : Nat
  remaining_seconds : Int
  limited : Bool
deriving Repr, DecidableEq

/-- `get_rate_limit_status` (`rate_limiter.py`, lines 117-158): builds the
per-action status map; the store is threaded through unchanged because the
function only queries. -/
def get_rate_limit_status (cfg : Config) (db : RLStore) (session_token : String)
    (now : Int) : RLStore × List (String × ActionStatus) :=
  (db,
    (db.filter (fun rl => rl.session_token == session_token)).map (fun rl =>
      let ws := cfg.RATE_LIMIT_WINDOW_SECONDS
      let remaining := truncSeconds (rl.window_start + (ws : Int) * usPerSec - now)
      let maxr :=
        if rl.action == "save_chat" then cfg.RATE_LIMIT_SAVE_CHAT
        else if rl.action == "personalize" then cfg.RATE_LIMIT_PERSONALIZE
        else cfg.RATE_LIMIT_MAX_REQUESTS
      (rl.action,
        { count := rl.count
          max := maxr
          window_seconds := ws
          remaining_seconds := max 0 remaining
          limited := decide (maxr ≤ rl.count) && decide ((0 : Int) < remaining) })))

/-- Run `check_rate_limit` on a sequence of call times, collecting
the `(allowed, retry_after)` results. -/
def runCalls (cfg : Config) (session_token action : String)
    (max_requests window_seconds : Option Nat) :
    RLStore → List Int → RLStore × List (Bool × Int)
  | db, [] => (db, [])
  | db, t :: ts =>
      let s := check_rate_limit cfg db session_token action max_requests window_seconds t
      let r := runCalls cfg session_token action max_requests window_seconds s.1 ts
      (r.1, s.2 :: r.2)

/-- A row of the `users` table (`models.py`, `User`). -/
structure User where
  id : Nat
  email : String
  email_verified : Bool
  tier : String
deriving Repr, DecidableEq

/-- A row of the `sessions` table (`models.py`, `Session`);
`expires_at = none` means the session never expires. -/
structure Session where
  user_id : Nat
  session_token : String
  created_at : Int
  expires_at : Option Int
  last_activity : Int
deriving Repr, DecidableEq

/-- A row of the `verification_tokens` table (`models.py`, `VerificationToken`). -/
structure VerificationToken where
  email : String
  token : String
  created_at : Int
  expires_at : Int
  used : Bool
deriving Repr, DecidableEq

/-- The identity and quota store: the three credential tables. -/
structure Store where
  users : List User
  sessions : List Session
  tokens : List VerificationToken
deriving Repr, DecidableEq

/-- Errors raised by `validate_token` (`main.py`, lines 348-365). -/
inductive AuthError where
  | UNAUTHORIZED
  | SESSION_EXPIRED
deriving Repr, DecidableEq

/-- `authorization.startswith("Bearer ")` on code points. -/
def hasBearer (s : String) : Bool :=
  "Bearer ".toList.isPrefixOf s.toList

/-- `authorization[7:]`: drop the seven code points of `"Bearer "`. -/
def bearerToken (s : String) : String :=
  ⟨s.toList.drop 7⟩

/-- `validate_token` (`main.py`, lines 348-365): requires a `Bearer`
credential and a stored session with the given token. It never reads
`expires_at`. -/
def validate_token (authorization : Option String) (db : Store) :
    Except AuthError Session :=
  match authorization with
  | none => .error .UNAUTHORIZED
  | some auth =>
      if hasBearer auth then
        match db.sessions.find? (fun s => s.session_token == bearerToken auth) with
        | none => .error .SESSION_EXPIRED
        | some s => .ok s
      else .error .UNAUTHORIZED

/-- `refresh_token` (`main.py`, lines 489-505): validate the old session,
then insert a new session row for the same user.  The freshly generated
random token is passed in as `new_token`. -/
def refresh_token (authorization : Option String) (db : Store)
    (new_token : String) (now : Int) : Store × Except AuthError String :=
  match validate_token authorization db with
  | .error e => (db, .error e)
  | .ok old_session =>
      ({ db with sessions :=
          db.sessions ++ [⟨old_session.user_id, new_token, now, none, now⟩] },
        .ok new_token)

/-- Typed errors of the `verify` endpoint (`main.py`, lines 416-440). -/
inductive VerifyError where
  | INVALID_TOKEN
  | TOKEN_EXPIRED
deriving Repr, DecidableEq

/-- Outcome of the `verify` endpoint. `crash` is the unhandled
`AttributeError` raised at `user.id` when no user row matches the token's
email (`main.py`, line 450); nothing is committed in that case. -/
inductive VerifyOutcome where
  | error (e : VerifyError)
  | crash
  | ok (session_token email tier : String)
deriving Repr, DecidableEq

/-- The query of `verify` (`main.py`, lines 421-424): first token row with
this token string and `used == False`. -/
def findTok (tokens : List VerificationToken) (token : String) :
    Option VerificationToken :=
  tokens.find? (fun v => v.token == token && v.used == false)

/-- `verification.used = True` on the row object returned by the query. -/
def markFirst (tokens : List VerificationToken) (token : String) :
    List VerificationToken :=
  replaceFirstBy (fun v => v.token == token && v.used == false)
    (fun v => { v with used := true }) tokens

/-- First suspension point of `verify`: the token read
(`main.py`, lines 421-424). -/
def verifyRead (db : Store) (token : String) : Option VerificationToken :=
  findTok db.tokens token

/-- Remainder of `verify` after the token read (`main.py`, lines 433-456):
expiry check, mark-used, user lookup (crash if absent), user update,
session insertion, commit. -/
def verifyFinish (db : Store) (token : String) (v : VerificationToken)
    (new_session_token : String) (now : Int) : Store × VerifyOutcome :=
  if v.expires_at < now then (db, .error .TOKEN_EXPIRED)
  else
    match db.users.find? (fun u => u.email == v.email) with
    | none => (db, .crash)
    | some u =>
        ({ db with
            users := replaceFirstBy (fun w => w.email == v.email)
              (fun w => { w with email_verified := true }) db.users
            tokens := markFirst db.tokens token
            sessions := db.sessions ++ [⟨u.id, new_session_token, now, none, now⟩] },
          .ok new_session_token u.email u.tier)

/-- The `verify` endpoint (`main.py`, lines 416-464): consume a
verification token and issue a session. The freshly generated session
token is passed in as `new_session_token`. -/
def verify (db : Store) (token new_session_token : String) (now : Int) :
    Store × VerifyOutcome :=
  match verifyRead db token with
  | none => (db, .error .INVALID_TOKEN)
  | some v => verifyFinish db token v new_session_token now

/-- Python's `\s` class over the characters relevant here. -/
def isWS (c : Char) : Bool :=
  c == ' ' || c == '\t' || c == '\n' || c == '\r' || c == '\x0b' || c == '\x0c'

/-- A character of the class `[^\s@]` of the email regex. -/
def emailAtomChar (c : Char) : Bool :=
  !isWS c && !(c == '@')

/-- Split a character list at every `'@'`. -/
def splitEmail : List Char → List (List Char)
  | [] => [[]]
  | c :: cs =>
      let rest := splitEmail cs
      if c == '@' then [] :: rest
      else
        match rest with
        | [] => [[c]]
        | seg :: segs => (c :: seg) :: segs

/-- `is_valid_email` (`main.py`, lines 343-346): full match of
`^[^\s@]+@[^\s@]+\.[^\s@]+$`, i.e. exactly one `'@'`, a nonempty local
part, and a domain containing an interior `'.'`, with no whitespace. -/
def is_valid_email (s : String) : Bool :=
  match splitEmail s.toList with
  | [a, d] =>
      !a.isEmpty && a.all emailAtomChar && d.all emailAtomChar &&
        ((d.drop 1).dropLast.contains '.')
  | _ => false

/-- Outcome of the `resend_verification` endpoint. -/
inductive ResendOutcome where
  | INVALID_EMAIL
  | verification_sent
deriving Repr, DecidableEq

/-- `resend_verification` (`main.py`, lines 507-533): for any valid email
it inserts a fresh verification token row with a 10-minute expiry; no user
row is required or consulted. The generated random token is passed in as
`token`. -/
def resend_verification (db : Store) (email token : String) (now : Int) :
    Store × ResendOutcome :=
  if is_valid_email email then
    ({ db with tokens := db.tokens ++ [⟨email, token, now, now + 600 * usPerSec, false⟩] },
      .verification_sent)
  else (db, .INVALID_EMAIL)

/-! ### List helper lemmas -/

/-- `replaceFirstBy` leaves a prefix with no match untouched. -/
theorem replaceFirstBy_append_of_none {α : Type} {p : α → Bool} (f : α → α)
    {l₁ : List α} (l₂ : List α) (h : l₁.find? p = none) :
    replaceFirstBy p f (l₁ ++ l₂) = l₁ ++ replaceFirstBy p f l₂ := by
  induction l₁ with
  | nil => rfl
  | cons x xs ih =>
      cases hx : p x with
      | true => rw [List.find?_cons_of_pos _ hx] at h; exact absurd h (by simp)
      | false =>
          rw [List.find?_cons_of_neg _ (by simp [hx])] at h
          simp [replaceFirstBy, hx, ih h]

/-- `find?` after `replaceFirstBy` when the replacement still matches. -/
theorem find?_replaceFirstBy {α : Type} {p : α → Bool} {f : α → α}
    {l : List α} {v : α} (h : l.find? p = some v) (hf : p (f v) = true) :
    (replaceFirstBy p f l).find? p = some (f v) := by
  induction l with
  | nil => simp at h
  | cons x xs ih =>
      cases hx : p x with
      | true =>
          rw [List.find?_cons_of_pos _ hx] at h
          injection h with h
          subst h
          have hrw : replaceFirstBy p f (x :: xs) = f x :: xs := by
            conv =>
              lhs
              rw [replaceFirstBy]
            rw [if_pos hx]
          rw [hrw, List.find?_cons_of_pos _ hf]
      | false =>
          have hxn : ¬ p x = true := by simp [hx]
          rw [List.find?_cons_of_neg _ hxn] at h
          have hrw : replaceFirstBy p f (x :: xs) = x :: replaceFirstBy p f xs := by
            conv =>
              lhs
              rw [replaceFirstBy]
            rw [if_neg hxn]
          rw [hrw, List.find?_cons_of_neg _ hxn]
          exact ih h

/-- When the store holds at most one row with a given token string,
marking the (unused) row found for it leaves no consumable row behind. -/
theorem findTok_markFirst_eq_none {tok : String} {l : List VerificationToken}
    {v : VerificationToken}
    (huniq : (l.filter (fun w => w.token == tok)).length ≤ 1)
    (hfind : findTok l tok = some v) :
    findTok (markFirst l tok) tok = none := by
  induction l with
  | nil => simp [findTok] at hfind
  | cons x xs ih =>
      cases hx : (x.token == tok && x.used == false) with
      | true =>
          have hxt : (x.token == tok) = true := by
            cases hand : x.token == tok with
            | true => rfl
            | false => rw [hand] at hx; simp at hx
          have hxs : (xs.filter (fun w => w.token == tok)).length = 0 := by
            have : (List.filter (fun w => w.token == tok) (x :: xs)).length
                = (xs.filter (fun w => w.token == tok)).length + 1 := by
              simp [List.filter_cons, hxt]
            omega
          have hnone : ∀ w ∈ xs, ¬((w.token == tok && w.used == false) = true) := by
            intro w hw hc
            have hwt : (w.token == tok) = true := by
              cases hand : w.token == tok with
              | true => rfl
              | false => rw [hand] at hc; simp at hc
            have : w ∈ xs.filter (fun w => w.token == tok) := by
              simp [List.mem_filter, hw, hwt]
            rw [List.length_eq_zero] at hxs
            simp [hxs] at this
          have hmk : markFirst (x :: xs) tok = { x with used := true } :: xs := by
            unfold markFirst
            conv =>
              lhs
              rw [replaceFirstBy]
            rw [if_pos hx]
          rw [hmk]
          unfold findTok
          rw [List.find?_cons_of_neg _ (by simp)]
          exact List.find?_eq_none.mpr hnone
      | false =>
          have hxn : ¬ (x.token == tok && x.used == false) = true := by
            rw [hx]
            simp
          have hmk : markFirst (x :: xs) tok = x :: markFirst xs tok := by
            unfold markFirst
            conv =>
              lhs
              rw [replaceFirstBy]
            rw [if_neg hxn]
          have hfd : findTok xs tok = some v := by
            unfold findTok at hfind
            rwa [List.find?_cons_of_neg
              (p := fun w => w.token == tok && w.used == false) xs hxn] at hfind
          have huniq' : (xs.filter (fun w => w.token == tok)).length ≤ 1 := by
            cases hxt : x.token == tok with
            | true =>
                have hlen : (List.filter (fun w => w.token == tok) (x :: xs)).length
                    = (xs.filter (fun w => w.token == tok)).length + 1 := by
                  simp [List.filter_cons, hxt]
                omega
            | false =>
                have hlen : (List.filter (fun w => w.token == tok) (x :: xs)).length
                    = (xs.filter (fun w => w.token == tok)).length := by
                  simp [List.filter_cons, hxt]
                omega
          rw [hmk]
          unfold findTok
          rw [List.find?_cons_of_neg
            (p := fun w => w.token == tok && w.used == false) (markFirst xs tok) hxn]
          exact ih huniq' hfd

/-! ### Rate limiter lemmas -/

/-- Bounds of the rejected-call backoff hint: with `0 ≤ rem ≤ W·10⁶`
microseconds remaining and `1 ≤ W`, the value `max 1 (truncSeconds rem)`
lies in `[1, W]`. -/
theorem retry_after_bounds {W : Nat} (hW : 1 ≤ W) {rem : Int}
    (h0 : 0 ≤ rem) (hle : rem ≤ (W : Int) * usPerSec) :
    1 ≤ max 1 (truncSeconds rem) ∧ max 1 (truncSeconds rem) ≤ (W : Int) := by
  refine ⟨le_max_left _ _, ?_⟩
  have hpos : (0 : Int) < usPerSec := by decide
  have htd : truncSeconds rem = rem / usPerSec := by
    unfold truncSeconds
    exact Int.tdiv_eq_ediv h0 (by decide)
  have h1 : rem / usPerSec ≤ ((W : Int) * usPerSec) / usPerSec :=
    Int.ediv_le_ediv hpos hle
  rw [Int.mul_ediv_cancel _ (by decide)] at h1
  have hWi : (1 : Int) ≤ (W : Int) := by exact_mod_cast hW
  rw [htd]
  exact max_le hWi h1

/-- The step of `check_rate_limit` on a store whose only matching row is
`⟨tok, act, k, t0⟩` appended after a matchless prefix, at a time `t`
inside the window. -/
theorem check_rate_limit_in_window (cfg : Config) (tok act : String)
    (mr wsO : Option Nat) (db0 : RLStore) (t0 t : Int) (k : Nat)
    (hno : db0.find? (rlMatch tok act) = none)
    (hin : t ≤ t0 + (resolveWindow cfg wsO : Int) * usPerSec) :
    check_rate_limit cfg (db0 ++ [⟨tok, act, k, t0⟩]) tok act mr wsO t =
      if resolveMax cfg act mr ≤ k then
        (db0 ++ [⟨tok, act, k, t0⟩], false,
          max 1 (truncSeconds (t0 + (resolveWindow cfg wsO : Int) * usPerSec - t)))
      else
        (db0 ++ [⟨tok, act, k + 1, t0⟩], true, 0) := by
  have hmatch : rlMatch tok act ⟨tok, act, k, t0⟩ = true := by simp [rlMatch]
  have hfind : (db0 ++ [(⟨tok, act, k, t0⟩ : RateLimit)]).find? (rlMatch tok act)
      = some ⟨tok, act, k, t0⟩ := by
    rw [List.find?_append, hno]
    rw [List.find?_cons_of_pos _ hmatch]
    rfl
  have hwin : ¬ ((⟨tok, act, k, t0⟩ : RateLimit).window_start
      < t - (resolveWindow cfg wsO : Int) * usPerSec) := by
    show ¬ (t0 < t - (resolveWindow cfg wsO : Int) * usPerSec)
    omega
  have hrepl : ∀ f : RateLimit → RateLimit,
      replaceFirstBy (rlMatch tok act) f (db0 ++ [⟨tok, act, k, t0⟩])
        = db0 ++ [f ⟨tok, act, k, t0⟩] := by
    intro f
    rw [replaceFirstBy_append_of_none f _ hno]
    unfold replaceFirstBy
    rw [if_pos hmatch]
  unfold check_rate_limit
  rw [hfind]
  simp only [hwin, if_false, ite_false]
  by_cases hk : resolveMax cfg act mr ≤ k
  · rw [if_pos hk, if_pos hk]
  · rw [if_neg hk, if_neg hk, hrepl]

/-- After the first call has created the row with `count = 1` at time
`t0`, a further burst of calls inside `[t0, t0 + W]` keeps succeeding
until the count reaches the limit, and the call after that is rejected
with a backoff hint in `[1, W]`. -/
theorem runCalls_phase (cfg : Config) (tok act : String) (mr wsO : Option Nat)
    (db0 : RLStore) (t0 : Int) (hno : db0.find? (rlMatch tok act) = none)
    (hW : 1 ≤ resolveWindow cfg wsO) :
    ∀ (ts : List Int) (k : Nat), 1 ≤ k → k ≤ resolveMax cfg act mr →
      k + ts.length = resolveMax cfg act mr + 1 →
      (∀ t ∈ ts, t0 ≤ t ∧ t ≤ t0 + (resolveWindow cfg wsO : Int) * usPerSec) →
      ∃ ra, runCalls cfg tok act mr wsO (db0 ++ [⟨tok, act, k, t0⟩]) ts =
          (db0 ++ [⟨tok, act, resolveMax cfg act mr, t0⟩],
            List.replicate (resolveMax cfg act mr - k) (true, 0) ++ [(false, ra)]) ∧
        1 ≤ ra ∧ ra ≤ (resolveWindow cfg wsO : Int) := by
  intro ts
  induction ts with
  | nil =>
      intro k _ hk2 hlen _
      exact absurd hlen (by simp; omega)
  | cons t ts ih =>
      intro k hk1 hk2 hlen hb
      obtain ⟨hbt1, hbt2⟩ := hb t (by simp)
      have hbs : ∀ t' ∈ ts, t0 ≤ t' ∧ t' ≤ t0 + (resolveWindow cfg wsO : Int) * usPerSec :=
        fun t' ht' => hb t' (by simp [ht'])
      have hstep := check_rate_limit_in_window cfg tok act mr wsO db0 t0 t k hno hbt2
      rcases Nat.lt_or_ge k (resolveMax cfg act mr) with hlt | hge
      · -- under the limit: the call increments and we recurse
        rw [if_neg (by omega)] at hstep
        obtain ⟨ra, hrun, hra⟩ := ih (k + 1) (by omega) (by omega)
          (by rw [List.length_cons] at hlen; omega) hbs
        refine ⟨ra, ?_, hra⟩
        have hrep : List.replicate (resolveMax cfg act mr - k) ((true, 0) : Bool × Int)
            = (true, 0) :: List.replicate (resolveMax cfg act mr - (k + 1)) (true, 0) := by
          have hs : resolveMax cfg act mr - k = (resolveMax cfg act mr - (k + 1)) + 1 := by
            omega
          rw [hs, List.replicate_succ]
        simp only [runCalls, hstep, hrun, hrep, List.cons_append]
      · -- at the limit: this call is rejected
        have hkeq : k = resolveMax cfg act mr := by omega
        subst hkeq
        have hts : ts = [] := by
          have hl : ts.length = 0 := by rw [List.length_cons] at hlen; omega
          exact List.length_eq_zero.mp hl
        subst hts
        rw [if_pos (le_refl _)] at hstep
        obtain ⟨h1, h2⟩ := retry_after_bounds hW
          (show (0:Int) ≤ t0 + (resolveWindow cfg wsO : Int) * usPerSec - t by omega)
          (show t0 + (resolveWindow cfg wsO : Int) * usPerSec - t
            ≤ (resolveWindow cfg wsO : Int) * usPerSec by omega)
        refine ⟨max 1 (truncSeconds (t0 + (resolveWindow cfg wsO : Int) * usPerSec - t)),
          ?_, h1, h2⟩
        simp only [runCalls, hstep]
        simp

/-! ### Claims about the rate limiter -/

/-- Claim C1: for an (identity, action) pair with configured limit `L` and
window `W`, starting from a store with no counter row for the pair, a
sequence of `L + 1` calls within one `W`-second span has its first `L`
calls allowed — the first call creating the row with `count = 1` and
`window_start` set to the call time — and its `(L+1)`-th call rejected
with `retry_after ∈ [1, W]`. -/
theorem check_rate_limit_first_window (cfg : Config) (tok act : String)
    (mr wsO : Option Nat) (db : RLStore) (t0 : Int) (rest : List Int)
    (hL : 1 ≤ resolveMax cfg act mr) (hW : 1 ≤ resolveWindow cfg wsO)
    (hno : db.find? (rlMatch tok act) = none)
    (hlen : rest.length = resolveMax cfg act mr)
    (hb : ∀ t ∈ rest, t0 ≤ t ∧ t ≤ t0 + (resolveWindow cfg wsO : Int) * usPerSec) :
    check_rate_limit cfg db tok act mr wsO t0 = (db ++ [⟨tok, act, 1, t0⟩], true, 0) ∧
    ∃ ra, (runCalls cfg tok act mr wsO db (t0 :: rest)).2 =
        List.replicate (resolveMax cfg act mr) (true, 0) ++ [(false, ra)] ∧
      1 ≤ ra ∧ ra ≤ (resolveWindow cfg wsO : Int) := by
  have hfirst : check_rate_limit cfg db tok act mr wsO t0
      = (db ++ [⟨tok, act, 1, t0⟩], true, 0) := by
    unfold check_rate_limit
    rw [hno]
  refine ⟨hfirst, ?_⟩
  obtain ⟨ra, hrun, hra⟩ := runCalls_phase cfg tok act mr wsO db t0 hno hW rest 1
    (le_refl 1) hL (by omega) hb
  refine ⟨ra, ?_, hra⟩
  have hrep : List.replicate (resolveMax cfg act mr) ((true, 0) : Bool × Int)
      = (true, 0) :: List.replicate (resolveMax cfg act mr - 1) (true, 0) := by
    conv =>
      lhs
      rw [show resolveMax cfg act mr = (resolveMax cfg act mr - 1) + 1 from by omega]
    rw [List.replicate_succ]
  simp only [runCalls, hfirst, hrun, hrep, List.cons_append]

/-- Witness for C1 at the production configuration: limit 10, window 60 s,
eleven calls in the first minute. -/
theorem check_rate_limit_first_window_witness :
    check_rate_limit prodConfig [] "s" "chat" none none 0
        = ([⟨"s", "chat", 1, 0⟩], true, 0) ∧
    ∃ ra, (runCalls prodConfig "s" "chat" none none []
        (0 :: [1000000, 2000000, 3000000, 4000000, 5000000, 6000000, 7000000,
          8000000, 9000000, 10000000])).2 =
        List.replicate (resolveMax prodConfig "chat" none) (true, 0) ++ [(false, ra)] ∧
      1 ≤ ra ∧ ra ≤ (resolveWindow prodConfig none : Int) :=
  check_rate_limit_first_window prodConfig "s" "chat" none none [] 0
    [1000000, 2000000, 3000000, 4000000, 5000000, 6000000, 7000000,
      8000000, 9000000, 10000000]
    (by decide) (by decide) (by decide) (by decide) (by decide)

/-- Claim C5: when the found counter row's window has elapsed
(`now - window_start > window`), the call resets the row to `count = 1`,
`window_start = now` and allows the request, whatever `count` was; only
the matching row changes, and only on this call. -/
theorem check_rate_limit_window_elapsed_reset (cfg : Config) (db : RLStore)
    (tok act : String) (mr wsO : Option Nat) (now : Int) (r : RateLimit)
    (hfind : db.find? (rlMatch tok act) = some r)
    (helapsed : r.window_start < now - (resolveWindow cfg wsO : Int) * usPerSec) :
    check_rate_limit cfg db tok act mr wsO now =
      (replaceFirstBy (rlMatch tok act)
        (fun x => { x with count := 1, window_start := now }) db, true, 0) ∧
    (check_rate_limit cfg db tok act mr wsO now).1.find? (rlMatch tok act)
      = some { r with count := 1, window_start := now } := by
  have h1 : check_rate_limit cfg db tok act mr wsO now
      = (replaceFirstBy (rlMatch tok act)
          (fun x => { x with count := 1, window_start := now }) db, true, 0) := by
    simp only [check_rate_limit, hfind]
    rw [if_pos helapsed]
  refine ⟨h1, ?_⟩
  rw [h1]
  have hp : rlMatch tok act { r with count := 1, window_start := now } = true := by
    have hr := List.find?_some hfind
    simpa [rlMatch] using hr
  exact find?_replaceFirstBy hfind hp

/-- Witness for C5: a row with `count = 99` whose 60-second window started
61 seconds ago is reset to `count = 1` and the request is allowed. -/
theorem check_rate_limit_window_elapsed_reset_witness :
    check_rate_limit prodConfig [⟨"s", "chat", 99, 0⟩] "s" "chat" none none 61000000 =
      (replaceFirstBy (rlMatch "s" "chat")
        (fun x => { x with count := 1, window_start := 61000000 })
        [⟨"s", "chat", 99, 0⟩], true, 0) ∧
    (check_rate_limit prodConfig [⟨"s", "chat", 99, 0⟩] "s" "chat" none none
        61000000).1.find? (rlMatch "s" "chat")
      = some ⟨"s", "chat", 1, 61000000⟩ :=
  check_rate_limit_window_elapsed_reset prodConfig [⟨"s", "chat", 99, 0⟩]
    "s" "chat" none none 61000000 ⟨"s", "chat", 99, 0⟩ (by decide) (by decide)

/-- Claim C6, counterexample: with 1.5 s left in the window the code
returns `retry_after = 1` (truncation), while the claimed formula
`max(1, ceil(window_start + window - now))` gives 2. -/
theorem check_rate_limit_retry_not_ceil :
    check_rate_limit prodConfig [⟨"t", "a", 5, 0⟩] "t" "a" (some 5) (some 60) 58500000
      = ([⟨"t", "a", 5, 0⟩], false, 1) ∧
    max 1 (ceilSeconds (0 + (60 : Int) * usPerSec - 58500000)) = 2 ∧
    (1 : Int) ≠ 2 := by decide

/-- Claim C6 as amended: on a rejection (row found, window not elapsed,
count at the limit) `retry_after` is `max(1, trunc(window_start + window -
now))` — truncation toward zero of the exact remaining seconds (Python's
`int()`), not the ceiling. -/
theorem check_rate_limit_reject_retry_trunc (cfg : Config) (db : RLStore)
    (tok act : String) (mr wsO : Option Nat) (now : Int) (r : RateLimit)
    (hfind : db.find? (rlMatch tok act) = some r)
    (hwin : ¬ r.window_start < now - (resolveWindow cfg wsO : Int) * usPerSec)
    (hcount : resolveMax cfg act mr ≤ r.count) :
    check_rate_limit cfg db tok act mr wsO now =
      (db, false, max 1 (truncSeconds
        (r.window_start + (resolveWindow cfg wsO : Int) * usPerSec - now))) := by
  simp only [check_rate_limit, hfind]
  rw [if_neg hwin, if_pos hcount]

/-- Witness for the amended C6 at the counterexample's input. -/
theorem check_rate_limit_reject_retry_trunc_witness :
    check_rate_limit prodConfig [⟨"t", "a", 5, 0⟩] "t" "a" (some 5) (some 60) 58500000
      = ([⟨"t", "a", 5, 0⟩], false,
        max 1 (truncSeconds (0 + ((60 : Nat) : Int) * usPerSec - 58500000))) :=
  check_rate_limit_reject_retry_trunc prodConfig [⟨"t", "a", 5, 0⟩] "t" "a"
    (some 5) (some 60) 58500000 ⟨"t", "a", 5, 0⟩ (by decide) (by decide) (by decide)

/-- Claim C8: `get_rate_limit_status` is read-only — for every store state
and identity it returns the store exactly as it was. -/
theorem get_rate_limit_status_read_only (cfg : Config) (db : RLStore)
    (tok : String) (now : Int) :
    (get_rate_limit_status cfg db tok now).1 = db := rfl

/-- Claim C10: every call of `check_rate_limit` either allows with
`retry_after = 0` or rejects with `retry_after ≥ 1`, for every store state
and input. -/
theorem check_rate_limit_retry_zero_iff_allowed (cfg : Config) (db : RLStore)
    (tok act : String) (mr wsO : Option Nat) (now : Int) :
    ((check_rate_limit cfg db tok act mr wsO now).2.1 = true ∧
      (check_rate_limit cfg db tok act mr wsO now).2.2 = 0) ∨
    ((check_rate_limit cfg db tok act mr wsO now).2.1 = false ∧
      1 ≤ (check_rate_limit cfg db tok act mr wsO now).2.2) := by
  cases hf : db.find? (rlMatch tok act) with
  | none =>
      left
      have h : check_rate_limit cfg db tok act mr wsO now
          = (db ++ [⟨tok, act, 1, now⟩], true, 0) := by
        unfold check_rate_limit
        rw [hf]
      rw [h]
      exact ⟨rfl, rfl⟩
  | some rl =>
      by_cases h1 : rl.window_start < now - (resolveWindow cfg wsO : Int) * usPerSec
      · left
        have h : check_rate_limit cfg db tok act mr wsO now
            = (replaceFirstBy (rlMatch tok act)
                (fun r => { r with count := 1, window_start := now }) db, true, 0) := by
          simp only [check_rate_limit, hf]
          rw [if_pos h1]
        rw [h]
        exact ⟨rfl, rfl⟩
      · by_cases h2 : resolveMax cfg act mr ≤ rl.count
        · right
          have h : check_rate_limit cfg db tok act mr wsO now
              = (db, false, max 1 (truncSeconds
                  (rl.window_start + (resolveWindow cfg wsO : Int) * usPerSec - now))) := by
            simp only [check_rate_limit, hf]
            rw [if_neg h1, if_pos h2]
          rw [h]
          exact ⟨rfl, le_max_left _ _⟩
        · left
          have h : check_rate_limit cfg db tok act mr wsO now
              = (replaceFirstBy (rlMatch tok act)
                  (fun r => { r with count := r.count + 1 }) db, true, 0) := by
            simp only [check_rate_limit, hf]
            rw [if_neg h1, if_neg h2]
          rw [h]
          exact ⟨rfl, rfl⟩

/-! ### Credential lifecycle lemmas and claims -/

/-- `hasBearer` holds for any credential of the form `"Bearer " ++ t`. -/
theorem hasBearer_append (t : String) : hasBearer ("Bearer " ++ t) = true := by
  unfold hasBearer
  have hl : ("Bearer " ++ t).toList = "Bearer ".toList ++ t.toList := by
    simp [String.toList, String.data_append]
  rw [hl, List.isPrefixOf_iff_prefix]
  exact List.prefix_append _ _

/-- `bearerToken` strips the `"Bearer "` prefix. -/
theorem bearerToken_append (t : String) : bearerToken ("Bearer " ++ t) = t := by
  unfold bearerToken
  have hl : ("Bearer " ++ t).toList = "Bearer ".toList ++ t.toList := by
    simp [String.toList, String.data_append]
  rw [hl, show (7 : Nat) = "Bearer ".toList.length from rfl, List.drop_left]
  rfl

/-- A caller-supplied credential carrying no `Bearer` token: the header is
absent or does not start with `"Bearer "` (`main.py`, line 350). -/
def noBearer (authorization : Option String) : Bool :=
  match authorization with
  | none => true
  | some s => !hasBearer s

/-- Claim C4, counterexample: a stored session whose `expires_at` (10) has
already passed at call time (now = 20 > 10) is still accepted —
`validate_token` never reads `expires_at`, so "a stored session whose
expiry time has passed is rejected" is false. -/
theorem validate_token_accepts_expired :
    ((⟨1, "tk", 0, some 10, 0⟩ : Session).expires_at = some 10 ∧ (10 : Int) < 20) ∧
    validate_token (some "Bearer tk") ⟨[], [⟨1, "tk", 0, some 10, 0⟩], []⟩
      = .ok ⟨1, "tk", 0, some 10, 0⟩ := by
  exact ⟨⟨rfl, by decide⟩, rfl⟩

/-- Claim C4 as amended: `validate_token` fails with `UNAUTHORIZED` for
every credential that carries no `Bearer` token; it fails with
`SESSION_EXPIRED` exactly when the Bearer token has no stored session row
— stored sessions are accepted regardless of `expires_at` — and on
success it returns the stored session, whose `user_id` is the caller
identity. -/
theorem validate_token_cases (a : Option String) (db : Store) (t2 t3 : String)
    (s : Session)
    (h1 : noBearer a = true)
    (h2 : db.sessions.find? (fun x => x.session_token == t2) = none)
    (h3 : db.sessions.find? (fun x => x.session_token == t3) = some s) :
    validate_token a db = .error .UNAUTHORIZED ∧
    validate_token (some ("Bearer " ++ t2)) db = .error .SESSION_EXPIRED ∧
    validate_token (some ("Bearer " ++ t3)) db = .ok s := by
  refine ⟨?_, ?_, ?_⟩
  · cases a with
    | none => rfl
    | some str =>
        have hs : hasBearer str = false := by simpa [noBearer] using h1
        simp only [validate_token]
        rw [if_neg (by simp [hs])]
  · simp only [validate_token, hasBearer_append, bearerToken_append]
    rw [if_pos trivial]
    rw [h2]
  · simp only [validate_token, hasBearer_append, bearerToken_append]
    rw [if_pos trivial]
    rw [h3]

/-- Witness for the amended C4: a wrong-scheme header, an unknown token
and a stored (even expired) token on a one-session store. -/
theorem validate_token_cases_witness :
    validate_token (some "Token abc") ⟨[], [⟨1, "tk", 0, some 10, 0⟩], []⟩
        = .error .UNAUTHORIZED ∧
    validate_token (some ("Bearer " ++ "zz")) ⟨[], [⟨1, "tk", 0, some 10, 0⟩], []⟩
        = .error .SESSION_EXPIRED ∧
    validate_token (some ("Bearer " ++ "tk")) ⟨[], [⟨1, "tk", 0, some 10, 0⟩], []⟩
        = .ok ⟨1, "tk", 0, some 10, 0⟩ :=
  validate_token_cases (some "Token abc") ⟨[], [⟨1, "tk", 0, some 10, 0⟩], []⟩
    "zz" "tk" ⟨1, "tk", 0, some 10, 0⟩ (by decide) (by decide) (by decide)

/-- Claim C7: refreshing a valid session mints a fresh token bound to the
same user identity; the fresh token validates, and the original token
still validates afterwards (the predecessor is not invalidated). -/
theorem refresh_token_overlap (auth : Option String) (db : Store) (nt : String)
    (now : Int) (old : Session)
    (hval : validate_token auth db = .ok old)
    (hfresh : ∀ s ∈ db.sessions, (s.session_token == nt) = false) :
    (refresh_token auth db nt now).2 = .ok nt ∧
    validate_token (some ("Bearer " ++ nt)) (refresh_token auth db nt now).1
      = .ok ⟨old.user_id, nt, now, none, now⟩ ∧
    validate_token auth (refresh_token auth db nt now).1 = .ok old := by
  have hdb : refresh_token auth db nt now
      = (⟨db.users, db.sessions ++ [⟨old.user_id, nt, now, none, now⟩], db.tokens⟩,
          .ok nt) := by
    unfold refresh_token
    rw [hval]
  -- invert the validation of the old credential
  obtain ⟨astr, rfl⟩ : ∃ astr, auth = some astr := by
    cases auth with
    | none => simp [validate_token] at hval
    | some astr => exact ⟨astr, rfl⟩
  have hbear : hasBearer astr = true := by
    by_contra hb
    have hb' : hasBearer astr = false := by simpa using hb
    simp [validate_token, hb'] at hval
  have hfound : db.sessions.find? (fun s => s.session_token == bearerToken astr)
      = some old := by
    cases hf : db.sessions.find? (fun s => s.session_token == bearerToken astr) with
    | none => simp [validate_token, hbear, hf] at hval
    | some s0 =>
        simp [validate_token, hbear, hf] at hval
        rw [hval]
  have hnone : db.sessions.find? (fun s => s.session_token == bearerToken ("Bearer " ++ nt))
      = none := by
    rw [bearerToken_append]
    exact List.find?_eq_none.mpr (fun x hx => by simp [hfresh x hx])
  refine ⟨by rw [hdb], ?_, ?_⟩
  · rw [hdb]
    simp only [validate_token, hasBearer_append]
    rw [if_pos trivial]
    rw [List.find?_append, hnone, Option.none_or, bearerToken_append,
      List.find?_cons_of_pos _ (by simp)]
  · rw [hdb]
    simp only [validate_token]
    rw [if_pos hbear]
    rw [List.find?_append, hfound]
    rfl

/-- Witness for C7 on a one-session store. -/
theorem refresh_token_overlap_witness :
    (refresh_token (some ("Bearer " ++ "tk")) ⟨[], [⟨1, "tk", 0, none, 0⟩], []⟩
        "new" 5).2 = .ok "new" ∧
    validate_token (some ("Bearer " ++ "new"))
        (refresh_token (some ("Bearer " ++ "tk")) ⟨[], [⟨1, "tk", 0, none, 0⟩], []⟩
          "new" 5).1 = .ok ⟨1, "new", 5, none, 5⟩ ∧
    validate_token (some ("Bearer " ++ "tk"))
        (refresh_token (some ("Bearer " ++ "tk")) ⟨[], [⟨1, "tk", 0, none, 0⟩], []⟩
          "new" 5).1 = .ok ⟨1, "tk", 0, none, 0⟩ :=
  refresh_token_overlap (some ("Bearer " ++ "tk")) ⟨[], [⟨1, "tk", 0, none, 0⟩], []⟩
    "new" 5 ⟨1, "tk", 0, none, 0⟩ rfl (by decide)

/-- Claim C2, counterexample: consuming a fresh token succeeds, but a
second consumption of the same token fails with `INVALID_TOKEN` — the
very same error an unknown token receives — because the query filters on
`used == False`, so there is no distinct already-used error condition. -/
theorem verify_reuse_same_error_as_missing :
    (verify ⟨[⟨1, "a@b.c", false, "lightweight"⟩], [],
        [⟨"a@b.c", "tk", 0, 600000000, false⟩]⟩ "tk" "s1" 1).2
      = .ok "s1" "a@b.c" "lightweight" ∧
    (verify (verify ⟨[⟨1, "a@b.c", false, "lightweight"⟩], [],
        [⟨"a@b.c", "tk", 0, 600000000, false⟩]⟩ "tk" "s1" 1).1 "tk" "s2" 2).2
      = .error .INVALID_TOKEN ∧
    (verify (verify ⟨[⟨1, "a@b.c", false, "lightweight"⟩], [],
        [⟨"a@b.c", "tk", 0, 600000000, false⟩]⟩ "tk" "s1" 1).1 "zz" "s2" 2).2
      = .error .INVALID_TOKEN := by decide

/-- Claim C2 as amended: `verify` reports two error conditions, not three.
A token string with no unused matching row — whether absent or already
used — fails with `INVALID_TOKEN`; an unused match past its expiry fails
with `TOKEN_EXPIRED`; an unused, unexpired match with an existing user
succeeds, and (with token strings unique) a second consumption of the
same token fails with `INVALID_TOKEN`, the not-found error. -/
theorem verify_error_modes (db : Store) (tok tok2 tok3 nt nt2 nt3 nt4 : String)
    (n1 n2 : Int) (v w : VerificationToken) (u : User)
    (huniq : (db.tokens.filter (fun x => x.token == tok)).length ≤ 1)
    (hfind : findTok db.tokens tok = some v)
    (hunexp : ¬ v.expires_at < n1)
    (huser : db.users.find? (fun x => x.email == v.email) = some u)
    (hmissing : findTok db.tokens tok2 = none)
    (hfind3 : findTok db.tokens tok3 = some w)
    (hexp3 : w.expires_at < n1) :
    (verify db tok2 nt3 n1).2 = .error .INVALID_TOKEN ∧
    (verify db tok3 nt4 n1).2 = .error .TOKEN_EXPIRED ∧
    (verify db tok nt n1).2 = .ok nt u.email u.tier ∧
    (verify (verify db tok nt n1).1 tok nt2 n2).2 = .error .INVALID_TOKEN := by
  have hsucc : verify db tok nt n1
      = (⟨replaceFirstBy (fun x => x.email == v.email)
            (fun x => { x with email_verified := true }) db.users,
          db.sessions ++ [⟨u.id, nt, n1, none, n1⟩],
          markFirst db.tokens tok⟩,
        .ok nt u.email u.tier) := by
    simp only [verify, verifyRead, hfind, verifyFinish]
    rw [if_neg hunexp]
    rw [huser]
  refine ⟨?_, ?_, ?_, ?_⟩
  · simp only [verify, verifyRead, hmissing]
  · simp only [verify, verifyRead, hfind3, verifyFinish]
    rw [if_pos hexp3]
  · rw [hsucc]
  · have hnone2 : findTok (markFirst db.tokens tok) tok = none :=
      findTok_markFirst_eq_none huniq hfind
    rw [hsucc]
    simp only [verify, verifyRead]
    rw [hnone2]

/-- Witness for the amended C2: a store with one user, a live token `tk`,
an expired token `tk3`, and no row for `zz`. -/
theorem verify_error_modes_witness :
    (verify ⟨[⟨1, "a@b.c", false, "lightweight"⟩], [],
        [⟨"a@b.c", "tk", 0, 600000000, false⟩, ⟨"a@b.c", "tk3", 0, -5, false⟩]⟩
      "zz" "x1" 1).2 = .error .INVALID_TOKEN ∧
    (verify ⟨[⟨1, "a@b.c", false, "lightweight"⟩], [],
        [⟨"a@b.c", "tk", 0, 600000000, false⟩, ⟨"a@b.c", "tk3", 0, -5, false⟩]⟩
      "tk3" "x2" 1).2 = .error .TOKEN_EXPIRED ∧
    (verify ⟨[⟨1, "a@b.c", false, "lightweight"⟩], [],
        [⟨"a@b.c", "tk", 0, 600000000, false⟩, ⟨"a@b.c", "tk3", 0, -5, false⟩]⟩
      "tk" "s1" 1).2 = .ok "s1" "a@b.c" "lightweight" ∧
    (verify (verify ⟨[⟨1, "a@b.c", false, "lightweight"⟩], [],
        [⟨"a@b.c", "tk", 0, 600000000, false⟩, ⟨"a@b.c", "tk3", 0, -5, false⟩]⟩
      "tk" "s1" 1).1 "tk" "s2" 2).2 = .error .INVALID_TOKEN :=
  verify_error_modes
    ⟨[⟨1, "a@b.c", false, "lightweight"⟩], [],
      [⟨"a@b.c", "tk", 0, 600000000, false⟩, ⟨"a@b.c", "tk3", 0, -5, false⟩]⟩
    "tk" "zz" "tk3" "s1" "s2" "x1" "x2" 1 2
    ⟨"a@b.c", "tk", 0, 600000000, false⟩ ⟨"a@b.c", "tk3", 0, -5, false⟩
    ⟨1, "a@b.c", false, "lightweight"⟩
    (by decide) (by decide) (by decide) (by decide) (by decide) (by decide) (by decide)

/-- Claim C3: the check-and-mark of `verify` is *not* atomic — it is a
read (`verifyRead`, the query at `main.py` lines 421-424) followed,
after the expiry check, by the mark/commit (`verifyFinish`, lines
433-456).  Under the interleaving read₁, read₂, finish₁, finish₂ of two
concurrent `verify` calls on the same token, both reads see the token
unused, both calls succeed, and two sessions are created — refuting "no
interleaving lets both succeed". -/
theorem verify_race_both_succeed :
    verifyRead ⟨[⟨1, "a@b.c", false, "lightweight"⟩], [],
        [⟨"a@b.c", "tk", 0, 600000000, false⟩]⟩ "tk"
      = some ⟨"a@b.c", "tk", 0, 600000000, false⟩ ∧
    (verifyFinish ⟨[⟨1, "a@b.c", false, "lightweight"⟩], [],
        [⟨"a@b.c", "tk", 0, 600000000, false⟩]⟩ "tk"
        ⟨"a@b.c", "tk", 0, 600000000, false⟩ "s1" 1).2
      = .ok "s1" "a@b.c" "lightweight" ∧
    (verifyFinish
        (verifyFinish ⟨[⟨1, "a@b.c", false, "lightweight"⟩], [],
          [⟨"a@b.c", "tk", 0, 600000000, false⟩]⟩ "tk"
          ⟨"a@b.c", "tk", 0, 600000000, false⟩ "s1" 1).1 "tk"
        ⟨"a@b.c", "tk", 0, 600000000, false⟩ "s2" 1).2
      = .ok "s2" "a@b.c" "lightweight" ∧
    (verifyFinish
        (verifyFinish ⟨[⟨1, "a@b.c", false, "lightweight"⟩], [],
          [⟨"a@b.c", "tk", 0, 600000000, false⟩]⟩ "tk"
          ⟨"a@b.c", "tk", 0, 600000000, false⟩ "s1" 1).1 "tk"
        ⟨"a@b.c", "tk", 0, 600000000, false⟩ "s2" 1).1.sessions.length = 2 := by
  decide

/-- Claim C9: `resend_verification` accepts any syntactically valid email
with no `User` row and still issues a token; consuming that token finds
it unused and unexpired, looks up the absent user, and crashes
(`AttributeError` at `user.id`, `main.py` line 450) instead of returning
a typed error. -/
theorem verify_crash_on_userless_token :
    (resend_verification ⟨[], [], []⟩ "a@b.c" "tk" 0).2 = .verification_sent ∧
    (resend_verification ⟨[], [], []⟩ "a@b.c" "tk" 0).1.users = [] ∧
    (verify (resend_verification ⟨[], [], []⟩ "a@b.c" "tk" 0).1 "tk" "s" 1).2
      = .crash := by decide

end Chat
